import Mathlib

/-!
Verification of the session/credential core of the timegrow nexus browser
client: the AuthProvider session store (AuthContext.tsx, second revision) and
the apiFetch gateway hook (useApi.ts), embedded shallowly. State cells of the
React component become fields of a record; the asynchronous identity
resolution becomes an explicit event interleaving on a store that tracks the
outstanding resolution tasks.
-/

namespace TimegrowNexus

/-- The resolved user profile (interface User in AuthContext.tsx): id and name. -/
structure User where
  id : Nat
  name : String
  deriving DecidableEq, Repr

/-- The four useState cells of AuthProvider (AuthContext.tsx): token, user,
loadingUser, loginError. -/
structure AuthState where
  token : Option String
  user : Option User
  loadingUser : Bool
  loginError : Option String
  deriving DecidableEq, Repr

/-- logout (AuthContext.tsx): removes the stored token from localStorage (a
storage failure there is caught and ignored), then setToken(null) and
setUser(null). It does not touch loginError. -/
def logout (s : AuthState) : AuthState :=
  { s with token := none, user := none }

/-- login (AuthContext.tsx). The storageOk flag models whether
localStorage.setItem succeeds. On success the token is stored, setToken runs
and loginError is cleared. If setItem throws, control jumps to the catch
clause BEFORE setToken is reached, so only loginError is set: the new token is
not held, not even in memory. -/
def login (s : AuthState) (newToken : String) (storageOk : Bool) : AuthState :=
  if storageOk then { s with token := some newToken, loginError := none }
  else { s with loginError := some "Unable to store authentication data." }

/-- The store together with the tokens of the outstanding fetchUser calls:
each pending entry is the token snapshot a still-unresolved run of
the effect body captured when it started. -/
structure StoreState where
  auth : AuthState
  pending : List String
  deriving DecidableEq, Repr

/-- Events of the session store (AuthContext.tsx). loginEv and logoutEv are
the public operations; effectRun is the useEffect body firing for the current
token (the async function it defines runs synchronously up to the awaited
fetch); resolveEv is the continuation of an outstanding run after its
fetchUser promise settles, carrying the token snapshot it captured and the
Option User value fetchUser returned (mapped user on success, null on any
non-ok status or network failure). -/
inductive Event where
  | loginEv (tok : String) (storageOk : Bool)
  | logoutEv
  | effectRun
  | resolveEv (forToken : String) (result : Option User)
  deriving DecidableEq, Repr

/-- One event applied to the store, following AuthContext.tsx line by line.
For effectRun with a token present: fetchUser first does setLoadingUser(true)
and the fetch is issued (a pending entry is recorded). With no token:
setUser(null) and setLoadingUser(false) run synchronously. For resolveEv: the
continuation runs setUser(fetchedUser) and setLoginError(null) on success, or
logout() followed by setLoginError(session-expired) on failure, then
setLoadingUser(false). The continuation performs NO comparison of its token
snapshot against the current token: stale results are applied unconditionally. -/
def step (st : StoreState) : Event → StoreState
  | Event.loginEv tok ok => { st with auth := login st.auth tok ok }
  | Event.logoutEv => { st with auth := logout st.auth }
  | Event.effectRun =>
      match st.auth.token with
      | some t => { auth := { st.auth with loadingUser := true },
                    pending := st.pending ++ [t] }
      | none => { st with auth := { st.auth with user := none, loadingUser := false } }
  | Event.resolveEv t result =>
      if st.pending.contains t then
        let auth1 :=
          match result with
          | some u => { st.auth with user := some u, loginError := none }
          | none => { logout st.auth with
                        loginError := some "Session expired. Please log in again." }
        { auth := { auth1 with loadingUser := false }, pending := st.pending.erase t }
      else st

/-- Run a sequence of store events from a given state. -/
def runTrace (st : StoreState) (evs : List Event) : StoreState :=
  evs.foldl step st

/-- A settled, unauthenticated store: no token in durable storage and the
startup effect already finished. -/
def initialStore : StoreState := ⟨⟨none, none, false, none⟩, []⟩

/-! The authenticated gateway (useApi.ts). Headers are modelled as an
association list of name-value pairs with the case-insensitive lookup and
replacing set of the browser Headers API. -/

/-- ASCII lowercasing of a string, character by character (the case
normalization the Headers API applies to header names). -/
def lowerStr (s : String) : String := String.mk (s.data.map Char.toLower)

/-- ASCII uppercasing of a string (toUpperCase applied to the method). -/
def upperStr (s : String) : String := String.mk (s.data.map Char.toUpper)

/-- Case-insensitive header-name comparison. -/
def nameMatches (a b : String) : Bool := lowerStr a == lowerStr b

/-- Headers.has: some entry has the given name, case-insensitively. -/
def Headers.has (hs : List (String × String)) (n : String) : Bool :=
  hs.any (fun p => nameMatches p.1 n)

/-- Headers.get: the value of the first entry with the given name. -/
def Headers.get (hs : List (String × String)) (n : String) : Option String :=
  Option.map Prod.snd (hs.find? (fun p => nameMatches p.1 n))

/-- Headers.set: replace the value of every entry with the given name, or
append the pair when no entry has it. -/
def Headers.set (hs : List (String × String)) (n v : String) : List (String × String) :=
  if Headers.has hs n then
    hs.map (fun p => if nameMatches p.1 n then (p.1, v) else p)
  else hs ++ [(n, v)]

/-- The method names for which apiFetch adds a JSON content type. -/
def writeMethods : List String := ["POST", "PUT", "PATCH", "DELETE"]

/-- First header step of apiFetch (useApi.ts): if a token exists, set the
Authorization header to the Bearer value; otherwise leave the headers as the
caller supplied them. -/
def addAuth (token : Option String) (headers : List (String × String)) :
    List (String × String) :=
  match token with
  | some t => Headers.set headers "Authorization" ("Bearer " ++ t)
  | none => headers

/-- Second header step of apiFetch (useApi.ts): for a write-style method, set
a JSON content type unless the caller already supplied one (checked under
both spellings, each case-insensitive through the Headers API). -/
def addContentType (method : Option String) (headers : List (String × String)) :
    List (String × String) :=
  match method with
  | some m =>
      if writeMethods.contains (upperStr m) then
        if !(Headers.has headers "Content-Type") && !(Headers.has headers "content-type") then
          Headers.set headers "Content-Type" "application/json"
        else headers
      else headers
  | none => headers

/-- Header construction of apiFetch (useApi.ts): starts from the headers of
the caller's options, sets the authorization header from the token when one
is held, then adds a JSON content type for write-style methods unless the
caller already supplied one. -/
def buildHeaders (token : Option String) (method : Option String)
    (optHeaders : List (String × String)) : List (String × String) :=
  addContentType method (addAuth token optHeaders)

/-- How JSON.parse sees a response body: not JSON at all, a JSON document
whose message field is absent or not a string (so reading it yields a falsy
value), or a JSON document with a string message field m (m may still be the
empty string, which is falsy). -/
inductive BodyParse where
  | notJson
  | jsonNoMessage
  | jsonMessage (m : String)
  deriving DecidableEq, Repr

/-- JS truthiness fallback on strings: a || b where the empty string is the
falsy case. -/
def jsTruthyOr (a b : String) : String := if a == "" then b else a

/-- The message of the exception raised inside the try block of the
non-auth error branch of apiFetch: JSON.parse either throws a SyntaxError
(body not JSON), or the code explicitly throws an Error built from
errorData.message, response.statusText and a fixed fallback, in that truthy
order. Every path through that try block throws. -/
def tryBlockException (statusText : String) (body : BodyParse) : String :=
  match body with
  | BodyParse.notJson => "SyntaxError: unexpected token"
  | BodyParse.jsonNoMessage => jsTruthyOr statusText "API request failed"
  | BodyParse.jsonMessage m => jsTruthyOr m (jsTruthyOr statusText "API request failed")

/-- The message of the error with which apiFetch rejects on a non-auth,
non-success response (useApi.ts). The explicit throw of the structured
message happens INSIDE the try block, so it is itself captured by the
catch clause right below it, whose own throw is the one that escapes; a
JSON.parse failure lands in the same catch. Either way the escaping error
carries statusText, with the fixed non-JSON fallback when statusText is
empty — the structured message computed in the try block is always
discarded. -/
def classifyErrorBody (statusText : String) (body : BodyParse) : String :=
  let _caughtByInnerCatch := tryBlockException statusText body
  jsTruthyOr statusText "API request failed (Non-JSON error)"

/-- response.ok of the fetch API: status in the 200 to 299 range. -/
def respOk (status : Nat) : Bool := 200 ≤ status && status ≤ 299

/-- A settled HTTP response as apiFetch observes it: status, statusText and
the body as JSON.parse sees it. -/
structure HttpResponse where
  status : Nat
  statusText : String
  bodyParse : BodyParse
  deriving DecidableEq, Repr

/-- The outcome of the fetch call itself: either a response arrived, or the
request never completed (host unreachable, timeout) and fetch rejected. -/
inductive FetchOutcome where
  | completed (resp : HttpResponse)
  | netFail (message : String)
  deriving DecidableEq, Repr

/-- How one apiFetch call settles, classified by the code path that produced
it: resolved with the parsed body; rejected after the forced logout of the
401/403 branch; rejected by the non-auth error branch; rejected because
response.json() failed on a success response; or rejected with the fetch
rejection itself (the outer catch rethrows every one of these unchanged). -/
inductive ApiOutcome where
  | ok (body : BodyParse)
  | authInvalid (message : String)
  | apiError (message : String)
  | jsonFailure
  | networkError (message : String)
  deriving DecidableEq, Repr

/-- The observable result of one apiFetch call: how the promise settles, the
session state after the call, and whether logout was invoked. -/
structure StepResult where
  result : ApiOutcome
  state : AuthState
  logoutInvoked : Bool
  deriving DecidableEq, Repr

/-- One apiFetch call (useApi.ts) against a session state, given the fetch
outcome. Status 401 or 403 invokes logout() and then throws the
authentication-failed error; any other non-ok status rejects through the
error-body branch without touching the store; an ok status resolves with the
parsed body, or rejects when the body is not JSON; a fetch rejection is
rethrown unchanged by the outer catch with the store untouched. -/
def apiFetchStep (s : AuthState) (outcome : FetchOutcome) : StepResult :=
  match outcome with
  | FetchOutcome.netFail msg => ⟨ApiOutcome.networkError msg, s, false⟩
  | FetchOutcome.completed resp =>
      if resp.status == 401 || resp.status == 403 then
        ⟨ApiOutcome.authInvalid
            ("Authentication failed (" ++ toString resp.status ++ ")."),
          logout s, true⟩
      else if !(respOk resp.status) then
        ⟨ApiOutcome.apiError (classifyErrorBody resp.statusText resp.bodyParse), s, false⟩
      else
        match resp.bodyParse with
        | BodyParse.notJson => ⟨ApiOutcome.jsonFailure, s, false⟩
        | b => ⟨ApiOutcome.ok b, s, false⟩

/-- useAuth (AuthContext.tsx): reads the context; a null context (no
surrounding AuthProvider) throws, a non-null context is returned. The data
fields of the context value are those of AuthState. -/
def useAuth (context : Option AuthState) : Except String AuthState :=
  match context with
  | none => Except.error "useAuth must be used within an AuthProvider"
  | some v => Except.ok v

/-! Lemmas about the Headers model. -/

/-- Two names matching a common third name match each other. -/
theorem nameMatches_trans (a m n : String) (h1 : nameMatches a m = true)
    (h2 : nameMatches a n = true) : nameMatches m n = true := by
  unfold nameMatches at h1 h2 ⊢
  have e1 : lowerStr a = lowerStr m := eq_of_beq h1
  have e2 : lowerStr a = lowerStr n := eq_of_beq h2
  rw [← e1, ← e2]
  exact beq_self_eq_true (lowerStr a)

/-- Replacing the value at a name present in the list makes the lookup at that
name return the new value. -/
theorem get_map_replace_same (hs : List (String × String)) (n v : String)
    (h : Headers.has hs n = true) :
    Headers.get (hs.map (fun p => if nameMatches p.1 n then (p.1, v) else p)) n
      = some v := by
  induction hs with
  | nil => simp [Headers.has] at h
  | cons p t ih =>
    by_cases hp : nameMatches p.1 n = true
    · simp [Headers.get, List.find?, hp]
    · have ht : Headers.has t n = true := by
        simpa [Headers.has, hp] using h
      simpa [Headers.get, List.find?, hp] using ih ht

/-- Appending an entry at a name absent from the list makes the lookup at
that name return the appended value. -/
theorem get_append_not_has (hs : List (String × String)) (n v : String)
    (h : Headers.has hs n = false) :
    Headers.get (hs ++ [(n, v)]) n = some v := by
  induction hs with
  | nil => simp [Headers.get, List.find?, nameMatches]
  | cons p t ih =>
    have hp : nameMatches p.1 n = false := by
      by_contra hc
      simp [Headers.has, eq_true_of_ne_false hc] at h
    have ht : Headers.has t n = false := by
      simpa [Headers.has, hp] using h
    simpa [Headers.get, List.find?, hp] using ih ht

/-- Setting a value makes the lookup at that name return it. -/
theorem get_set_same (hs : List (String × String)) (n v : String) :
    Headers.get (Headers.set hs n v) n = some v := by
  unfold Headers.set
  by_cases h : Headers.has hs n = true
  · simpa [h] using get_map_replace_same hs n v h
  · have h' : Headers.has hs n = false := by
      cases hb : Headers.has hs n
      · rfl
      · exact absurd hb h
    simpa [h'] using get_append_not_has hs n v h'

/-- Replacing values at one name leaves the lookup at a different name
unchanged. -/
theorem get_map_replace_other (hs : List (String × String)) (n m v : String)
    (hnm : nameMatches m n = false) :
    Headers.get (hs.map (fun p => if nameMatches p.1 m then (p.1, v) else p)) n
      = Headers.get hs n := by
  induction hs with
  | nil => rfl
  | cons p t ih =>
    by_cases hpm : nameMatches p.1 m = true
    · have hpn : nameMatches p.1 n = false := by
        by_contra hc
        have := nameMatches_trans p.1 m n hpm (eq_true_of_ne_false hc)
        rw [this] at hnm
        exact absurd hnm (by simp)
      simpa [Headers.get, List.find?, hpm, hpn] using ih
    · by_cases hpn : nameMatches p.1 n = true
      · simp [Headers.get, List.find?, hpm, hpn]
      · simpa [Headers.get, List.find?, hpm, hpn] using ih

/-- Appending an entry at one name leaves the lookup at a different name
unchanged. -/
theorem get_append_other (hs : List (String × String)) (n m v : String)
    (hnm : nameMatches m n = false) :
    Headers.get (hs ++ [(m, v)]) n = Headers.get hs n := by
  induction hs with
  | nil => simp [Headers.get, List.find?, hnm]
  | cons p t ih =>
    by_cases hpn : nameMatches p.1 n = true
    · simp [Headers.get, List.find?, hpn]
    · simpa [Headers.get, List.find?, hpn] using ih

/-- Setting one name leaves the lookup at a different name unchanged. -/
theorem get_set_other (hs : List (String × String)) (n m v : String)
    (hnm : nameMatches m n = false) :
    Headers.get (Headers.set hs m v) n = Headers.get hs n := by
  unfold Headers.set
  by_cases h : Headers.has hs m = true
  · simpa [h] using get_map_replace_other hs n m v hnm
  · have h' : Headers.has hs m = false := by
      cases hb : Headers.has hs m
      · rfl
      · exact absurd hb h
    simpa [h'] using get_append_other hs n m v hnm

/-- The content-type step never changes the Authorization lookup. -/
theorem addContentType_preserves_auth (method : Option String)
    (hs : List (String × String)) :
    Headers.get (addContentType method hs) "Authorization"
      = Headers.get hs "Authorization" := by
  have hct : nameMatches "Content-Type" "Authorization" = false := by decide
  cases method with
  | none => rfl
  | some m =>
    simp only [addContentType]
    by_cases hw : writeMethods.contains (upperStr m) = true
    · rw [if_pos hw]
      by_cases hc :
          (!(Headers.has hs "Content-Type") && !(Headers.has hs "content-type")) = true
      · rw [if_pos hc]
        exact get_set_other hs "Authorization" "Content-Type" "application/json" hct
      · rw [if_neg hc]
    · rw [if_neg hw]

/-! Claim theorems. -/

/-- C1: a Gateway call whose response has status 401 or 403 invokes the
Session Store logout, rejects with the AuthInvalid-kind error, and the store
afterwards holds no credential and no identity, regardless of its prior
state. -/
theorem apiFetch_authInvalid_forces_logout (s : AuthState) (resp : HttpResponse)
    (h : resp.status = 401 ∨ resp.status = 403) :
    apiFetchStep s (FetchOutcome.completed resp) =
      ⟨ApiOutcome.authInvalid
          ("Authentication failed (" ++ toString resp.status ++ ")."),
        logout s, true⟩
    ∧ (logout s).token = none ∧ (logout s).user = none := by
  have hb : (resp.status == 401 || resp.status == 403) = true := by
    rcases h with h | h <;> simp [h]
  refine ⟨?_, rfl, rfl⟩
  simp [apiFetchStep, hb]

/-- Concrete instance of the 401 case: an authenticated store is forced to
logout and the call rejects with the authentication-failed error. -/
theorem apiFetch_authInvalid_forces_logout_witness :
    apiFetchStep (⟨some "tok-1", some ⟨7, "Ada"⟩, false, none⟩ : AuthState)
        (FetchOutcome.completed ⟨401, "Unauthorized", BodyParse.notJson⟩) =
      ⟨ApiOutcome.authInvalid
          ("Authentication failed (" ++ toString (401 : Nat) ++ ")."),
        logout ⟨some "tok-1", some ⟨7, "Ada"⟩, false, none⟩, true⟩
    ∧ (logout (⟨some "tok-1", some ⟨7, "Ada"⟩, false, none⟩ : AuthState)).token = none
    ∧ (logout (⟨some "tok-1", some ⟨7, "Ada"⟩, false, none⟩ : AuthState)).user = none :=
  apiFetch_authInvalid_forces_logout _ _ (Or.inl rfl)

/-- C2: the store applies a resolution result without comparing its token
snapshot to the current token, so when resolution for credential A is still
pending at login(B) and completes after B did, the stale result overwrites
the newer one: in the run below the final identity is the one resolved for
A, although the current token is B. -/
theorem staleResolution_overwrites_newerLogin :
    (runTrace initialStore
        [Event.loginEv "A" true, Event.effectRun, Event.loginEv "B" true,
         Event.effectRun, Event.resolveEv "B" (some ⟨2, "UserB"⟩),
         Event.resolveEv "A" (some ⟨1, "UserA"⟩)]).auth
      = ⟨some "B", some ⟨1, "UserA"⟩, false, none⟩
    ∧ (⟨1, "UserA"⟩ : User) ≠ ⟨2, "UserB"⟩ := by decide

/-- C3: a stale resolution landing after an explicit logout leaves the store
with no credential but a non-null identity, breaking the invariant that the
identity is null whenever no credential is held. -/
theorem staleResolution_identity_without_credential :
    (runTrace initialStore
        [Event.loginEv "tokA" true, Event.effectRun, Event.logoutEv,
         Event.effectRun, Event.resolveEv "tokA" (some ⟨7, "Ada"⟩)]).auth.token = none
    ∧ (runTrace initialStore
        [Event.loginEv "tokA" true, Event.effectRun, Event.logoutEv,
         Event.effectRun, Event.resolveEv "tokA" (some ⟨7, "Ada"⟩)]).auth.user
      = some ⟨7, "Ada"⟩ := by decide

/-- C4 counterexample: with no credential held, an Authorization header the
caller put into the options passes through to the outgoing request, so the
request carries an Authorization header although no credential is held. -/
theorem buildHeaders_carries_caller_auth_header :
    Headers.get (buildHeaders none none [("Authorization", "Bearer attacker-supplied")])
        "Authorization" = some "Bearer attacker-supplied" := by decide

/-- C4 amended: the outgoing request carries the exact Bearer value of the
credential whenever one is held (overriding anything the caller supplied);
with no credential held, apiFetch itself never sets the header and the
Authorization lookup is exactly whatever the caller supplied. -/
theorem buildHeaders_auth_header_amended (token method : Option String)
    (hs : List (String × String)) :
    (∀ t, token = some t →
        Headers.get (buildHeaders token method hs) "Authorization"
          = some ("Bearer " ++ t))
    ∧ (token = none →
        Headers.get (buildHeaders token method hs) "Authorization"
          = Headers.get hs "Authorization") := by
  constructor
  · intro t ht
    subst ht
    unfold buildHeaders
    rw [addContentType_preserves_auth]
    exact get_set_same hs "Authorization" ("Bearer " ++ t)
  · intro ht
    subst ht
    unfold buildHeaders
    rw [addContentType_preserves_auth]
    rfl

/-- Concrete instance: a held credential tok-1 yields the Bearer header. -/
theorem buildHeaders_auth_header_amended_witness :
    Headers.get (buildHeaders (some "tok-1") none []) "Authorization"
      = some ("Bearer " ++ "tok-1") :=
  (buildHeaders_auth_header_amended (some "tok-1") none []).1 "tok-1" rfl

/-- C5: on a 500 response whose body parses as JSON with message
"Database exploded", the call rejects with the raw status text instead of the
structured message: the explicit throw of the structured message inside the
try block is captured by the catch clause directly below it. -/
theorem apiError_message_always_statusText :
    (apiFetchStep (⟨some "tok-1", none, false, none⟩ : AuthState)
        (FetchOutcome.completed
          ⟨500, "Internal Server Error", BodyParse.jsonMessage "Database exploded"⟩)).result
      = ApiOutcome.apiError "Internal Server Error"
    ∧ "Internal Server Error" ≠ "Database exploded" := by decide

/-- C6 counterexample: when the durable-storage write fails, login leaves the
token cell untouched (the credential is not held, not even in memory) and
records a storage error instead. -/
theorem login_storageFail_drops_credential :
    (login ⟨none, none, false, none⟩ "tok-1" false).token = none
    ∧ (login ⟨none, none, false, none⟩ "tok-1" false).loginError
        = some "Unable to store authentication data." := ⟨rfl, rfl⟩

/-- C6 amended: a login call during which the durable-storage write fails is
caught (login never throws) and only records the storage error message; the
token, identity and loading cells are left unchanged, so the session is not
established at all. -/
theorem login_storageFail_amended (s : AuthState) (tok : String) :
    login s tok false
      = { s with loginError := some "Unable to store authentication data." } := rfl

/-- C7 counterexample: calling logout while already Unauthenticated with a
stale error does not clear that error. -/
theorem logout_does_not_clear_error :
    (logout ⟨none, none, false, some "stale error"⟩).loginError
      = some "stale error" := rfl

/-- C7 amended: logout is idempotent, twice in a row equals once, and calling
it while already Unauthenticated is a complete no-op on the store state; in
particular it does not clear a stale error. -/
theorem logout_idempotent_amended (s : AuthState) :
    logout (logout s) = logout s
    ∧ (s.token = none → s.user = none → logout s = s) := by
  refine ⟨rfl, ?_⟩
  intro ht hu
  obtain ⟨t, u, l, e⟩ := s
  cases ht
  cases hu
  rfl

/-- Concrete instance: a settled unauthenticated store is a fixed point of
logout, and a second logout changes nothing. -/
theorem logout_idempotent_amended_witness :
    logout (logout ⟨none, none, false, none⟩) = logout ⟨none, none, false, none⟩
    ∧ logout (⟨none, none, false, none⟩ : AuthState) = ⟨none, none, false, none⟩ := by
  have h := logout_idempotent_amended ⟨none, none, false, none⟩
  exact ⟨h.1, h.2 rfl rfl⟩

/-- C8: a Gateway call failing at the network level rejects with the
NetworkError-kind outcome, the session state is unchanged, and logout is not
invoked. -/
theorem apiFetch_networkError_leaves_state (s : AuthState) (msg : String) :
    apiFetchStep s (FetchOutcome.netFail msg)
      = ⟨ApiOutcome.networkError msg, s, false⟩ := rfl

/-- C9: useAuth throws on a null context (call made outside an AuthProvider)
and returns the context value when one is present. -/
theorem useAuth_null_context_throws :
    useAuth none = Except.error "useAuth must be used within an AuthProvider"
    ∧ ∀ v : AuthState, useAuth (some v) = Except.ok v :=
  ⟨rfl, fun _ => rfl⟩

/-- C10: whenever a credential is held, the outgoing Authorization header is
exactly the Bearer value of that credential, whatever headers the caller
supplied in the options: a caller can never substitute its own authorization
value. -/
theorem apiFetch_overwrites_caller_authorization (t : String)
    (method : Option String) (hs : List (String × String)) :
    Headers.get (buildHeaders (some t) method hs) "Authorization"
      = some ("Bearer " ++ t) := by
  unfold buildHeaders
  rw [addContentType_preserves_auth]
  exact get_set_same hs "Authorization" ("Bearer " ++ t)

end TimegrowNexus
